import Mathlib

/-!
Verification of the product-card and catalog-page core of the
ecommerce-mini storefront.  The definitions below are a shallow embedding
of `src/components/ProductCard.tsx` and the home/catalog page component:
TypeScript records become Lean structures, the JSX output of each render
branch is modelled as a record of the rendered, behaviour-relevant parts,
and the event handlers are modelled as functions producing explicit
effect records.
-/

namespace EcommerceMini

/-- The `category` reference record of a product (`{ id, name } | null`). -/
structure Category where
  id : Int
  name : String
deriving Repr, DecidableEq

/-- `createdAt` / `updatedAt` values: either a serialized string form or a
structured date value (modelled by its epoch milliseconds). -/
inductive DateValue
  | str (s : String)
  | date (epochMillis : Int)
deriving Repr, DecidableEq

/-- The product record consumed by `ProductCard` (the `product` prop shape). -/
structure Product where
  id : Int
  name : String
  category : Option Category
  description : String
  price : Int
  stock : Int
  imageUrl : String
  createdAt : DateValue
  updatedAt : DateValue
deriving Repr, DecidableEq

/-- The `viewMode` enumeration: `'grid' | 'list'`. -/
inductive ViewMode
  | grid
  | list
deriving Repr, DecidableEq

/-- The props of `ProductCard`.  Optional props are `Option`s (`none` means
the prop was omitted); the optional callbacks `onLikeToggle` and
`onQuickView` are modelled by their presence. -/
structure ProductCardProps where
  product : Option Product
  isLiked : Option Bool
  onLikeToggle : Bool
  viewMode : Option ViewMode
  onQuickView : Bool
deriving Repr, DecidableEq

/-- `const isOutOfStock = product.stock <= 0;` -/
def isOutOfStock (p : Product) : Bool :=
  decide (p.stock ≤ 0)

/-- `const isLowStock = product.stock > 0 && product.stock <= 5;` -/
def isLowStock (p : Product) : Bool :=
  decide (p.stock > 0) && decide (p.stock ≤ 5)

/-- The observable effects of one activation of the quick-view control:
whether default navigation was suppressed, whether propagation was
stopped, and the list of arguments passed to the `onQuickView` callback
(one list entry per invocation). -/
structure QuickViewEffect where
  preventDefault : Bool
  stopPropagation : Bool
  calls : List Int
deriving Repr, DecidableEq

/-- `handleQuickView`: calls `e.preventDefault()` and `e.stopPropagation()`,
then invokes `onQuickView(product.id)` when the callback is present. -/
def handleQuickView (onQuickView : Bool) (productId : Int) : QuickViewEffect :=
  { preventDefault := true
    stopPropagation := true
    calls := if onQuickView then [productId] else [] }

/-- Helper for `toLocaleString`: walks the reversed digit list inserting a
separator after every group of three digits. -/
def groupRev : List Char → Nat → List Char
  | [], _ => []
  | c :: cs, k =>
    if k == 3 then ',' :: c :: groupRev cs 1
    else c :: groupRev cs (k + 1)

/-- `Number.prototype.toLocaleString()` for integers: thousands grouping
with a comma separator. -/
def toLocaleString (n : Int) : String :=
  let digits := (toString n.natAbs).data
  let grouped := (groupRev digits.reverse 0).reverse
  (if n < 0 then "-" else "") ++ String.mk grouped

/-- The three visual severities of the stock-status label
(`text-red-600` / `text-orange-600` / `text-green-600`). -/
inductive StockColor
  | red
  | orange
  | green
deriving Repr, DecidableEq

/-- The behaviour-relevant parts of one rendered card: which branch was
produced, the image-region state, the texts, the stock label and its
severity, the quick-view control's click effect, and the add-to-cart
control's disabled state and label. -/
structure CardView where
  branch : ViewMode
  spinnerShown : Bool
  imageOpacityFull : Bool
  outOfStockOverlay : Bool
  nameText : String
  categoryText : String
  descriptionText : Option String
  priceText : String
  stockText : String
  stockColor : StockColor
  quickViewOnActivate : QuickViewEffect
  addToCartDisabled : Bool
  addToCartLabel : String
deriving Repr, DecidableEq

/-- The list-branch JSX of `ProductCard` (`viewMode === 'list'`). -/
def renderList (p : Product) (imageLoading : Bool) (onQuickView : Bool) : CardView :=
  { branch := ViewMode.list
    spinnerShown := imageLoading
    imageOpacityFull := !imageLoading
    outOfStockOverlay := isOutOfStock p
    nameText := p.name
    categoryText :=
      match p.category with
      | some c => c.name
      | none => "Ангилалгүй"
    descriptionText := some p.description
    priceText := toLocaleString p.price ++ "₮"
    stockText :=
      if isOutOfStock p then "Out of Stock"
      else if isLowStock p then "Only " ++ toString p.stock ++ " left"
      else toString p.stock ++ " in stock"
    stockColor :=
      if isOutOfStock p then StockColor.red
      else if isLowStock p then StockColor.orange
      else StockColor.green
    quickViewOnActivate := handleQuickView onQuickView p.id
    addToCartDisabled := isOutOfStock p
    addToCartLabel := if isOutOfStock p then "Unavailable" else "Add to Cart" }

/-- The grid-branch JSX of `ProductCard` (the default branch).  The grid
branch renders no description paragraph. -/
def renderGrid (p : Product) (imageLoading : Bool) (onQuickView : Bool) : CardView :=
  { branch := ViewMode.grid
    spinnerShown := imageLoading
    imageOpacityFull := !imageLoading
    outOfStockOverlay := isOutOfStock p
    nameText := p.name
    categoryText :=
      match p.category with
      | some c => c.name
      | none => "Ангилалгүй"
    descriptionText := none
    priceText := toLocaleString p.price ++ "₮"
    stockText :=
      if isOutOfStock p then "Out of Stock"
      else if isLowStock p then "Only " ++ toString p.stock ++ " left"
      else toString p.stock ++ " in stock"
    stockColor :=
      if isOutOfStock p then StockColor.red
      else if isLowStock p then StockColor.orange
      else StockColor.green
    quickViewOnActivate := handleQuickView onQuickView p.id
    addToCartDisabled := isOutOfStock p
    addToCartLabel := if isOutOfStock p then "Unavailable" else "Add to Cart" }

/-- The body of `ProductCard`: `if (!product) return null;` then
`if (viewMode === 'list')` selects the list branch, otherwise the grid
branch; `viewMode` defaults to `'grid'` when omitted. -/
def renderProductCard (props : ProductCardProps) (imageLoading : Bool) : Option CardView :=
  match props.product with
  | none => none
  | some p =>
    if props.viewMode.getD ViewMode.grid == ViewMode.list then
      some (renderList p imageLoading props.onQuickView)
    else
      some (renderGrid p imageLoading props.onQuickView)

/-- The response of the product-listing fetch: a success flag (`res.ok`)
and the parsed JSON body (only consulted on success). -/
structure FetchResponse where
  ok : Bool
  body : List Product
deriving Repr, DecidableEq

/-- The catalog-page state: `const [products, setProducts] = useState([])`. -/
structure PageState where
  products : List Product
deriving Repr, DecidableEq

/-- The initial page state: the catalog starts empty. -/
def initialPageState : PageState :=
  { products := [] }

/-- `fetchFeaturedProducts`: on `res.ok`, replace the products state with
the response body; otherwise leave the state untouched and emit
`console.error('Product fetch error')`.  The second component collects the
operator-channel diagnostics. -/
def fetchFeaturedProducts (st : PageState) (res : FetchResponse) : PageState × List String :=
  if res.ok then ({ products := res.body }, [])
  else (st, ["Product fetch error"])

/-- One `<ProductCard key={product.id} product={product} />` element as
instantiated by the page: its `key` and its props. -/
structure RenderedCard where
  key : Int
  props : ProductCardProps
deriving Repr, DecidableEq

/-- The props the page passes to each card: only `product` is supplied,
every optional prop is omitted. -/
def cardPropsFor (p : Product) : ProductCardProps :=
  { product := some p
    isLiked := none
    onLikeToggle := false
    viewMode := none
    onQuickView := false }

/-- The "featured products" section: `products.map((product) =>
<ProductCard key={product.id} product={product} />)`. -/
def featuredSection (products : List Product) : List RenderedCard :=
  products.map (fun p => { key := p.id, props := cardPropsFor p })

/-- The "all products" section: the identical `products.map(...)` block. -/
def allProductsSection (products : List Product) : List RenderedCard :=
  products.map (fun p => { key := p.id, props := cardPropsFor p })

/-- Events observed by one mounted card instance: the image resource's
one-shot load-completion signal (`onLoad`), or any other re-render, which
touches no state. -/
inductive CardEvent
  | imageLoad
  | rerender
deriving Repr, DecidableEq

/-- `useState(true)`: `imageLoading` starts `true` on mount. -/
def imageLoadingInit : Bool := true

/-- The only write to `imageLoading` is `onLoad={() => setImageLoading(false)}`;
no event sets it back to `true`. -/
def imageLoadingStep (s : Bool) : CardEvent → Bool
  | CardEvent.imageLoad => false
  | CardEvent.rerender => s

/-- The `imageLoading` value after a sequence of events on one mount. -/
def imageLoadingAfter (events : List CardEvent) : Bool :=
  events.foldl imageLoadingStep imageLoadingInit

/-- One mounted page instance: whether it is still mounted, its state, and
a count of state writes issued while unmounted ("set state on unmounted
target" faults). -/
structure PageInstance where
  mounted : Bool
  state : PageState
  unmountedWrites : Nat
deriving Repr, DecidableEq

/-- A freshly mounted page: mounted, empty catalog, no faults. -/
def pageInit : PageInstance :=
  { mounted := true, state := initialPageState, unmountedWrites := 0 }

/-- Lifecycle events of the page after its mount-time fetch was issued:
the page unmounts, or the pending fetch resolves. -/
inductive PageEvent
  | unmount
  | fetchResolved (res : FetchResponse)
deriving Repr, DecidableEq

/-- The `useEffect` in the page registers no cleanup function and the fetch
handler carries no abort or mounted-flag check, so when the pending fetch
resolves successfully the handler runs `setProducts(data)` unconditionally
— the write is issued whether or not the component is still mounted.  A
write issued while unmounted is counted in `unmountedWrites`. -/
def pageStep (inst : PageInstance) : PageEvent → PageInstance
  | PageEvent.unmount => { inst with mounted := false }
  | PageEvent.fetchResolved res =>
    if res.ok then
      { inst with
        state := { products := res.body }
        unmountedWrites := inst.unmountedWrites + (if inst.mounted then 0 else 1) }
    else inst

/-- The page instance after a sequence of lifecycle events from mount. -/
def pageRun (events : List PageEvent) : PageInstance :=
  events.foldl pageStep pageInit

/-- A concrete product used to instantiate theorems; its category is
absent and its stock is the parameter. -/
def sampleProduct (stock : Int) : Product :=
  { id := 1
    name := "A"
    category := none
    description := "d"
    price := 1000
    stock := stock
    imageUrl := "img"
    createdAt := DateValue.str "2024-01-01"
    updatedAt := DateValue.str "2024-01-01" }

/-- A low-stock product is not out of stock: the two derived booleans are
mutually exclusive. -/
theorem isLowStock_isOutOfStock_false (p : Product) (h : isLowStock p = true) :
    isOutOfStock p = false := by
  simp [isLowStock, isOutOfStock] at *
  omega

/-- Claim C1: for every stock value `s ≥ 0` the classification derived from
`isOutOfStock` and `isLowStock` yields exactly one of out-of-stock
(`s ≤ 0`), low-stock (`0 < s ≤ 5`) and in-stock (`s > 5`), and every
stock-dependent decision of the rendered card (overlay, stock label,
severity, add-to-cart disabled state and label) is the same function of
this classification in the list branch and the grid branch. -/
theorem stock_classification_partition (p : Product) (h : 0 ≤ p.stock) :
    (isOutOfStock p = true ↔ p.stock ≤ 0) ∧
    (isLowStock p = true ↔ 0 < p.stock ∧ p.stock ≤ 5) ∧
    ((isOutOfStock p = false ∧ isLowStock p = false) ↔ 5 < p.stock) ∧
    ¬(isOutOfStock p = true ∧ isLowStock p = true) ∧
    (∀ il oq : Bool,
      (renderList p il oq).outOfStockOverlay = isOutOfStock p ∧
      (renderGrid p il oq).outOfStockOverlay = isOutOfStock p ∧
      (renderList p il oq).addToCartDisabled = isOutOfStock p ∧
      (renderGrid p il oq).addToCartDisabled = isOutOfStock p ∧
      (renderList p il oq).stockText = (renderGrid p il oq).stockText ∧
      (renderList p il oq).stockColor = (renderGrid p il oq).stockColor ∧
      (renderList p il oq).addToCartLabel = (renderGrid p il oq).addToCartLabel) := by
  refine ⟨?_, ?_, ?_, ?_, ?_⟩
  · simp [isOutOfStock]
  · simp [isLowStock]
  · simp [isOutOfStock, isLowStock]
    omega
  · simp [isOutOfStock, isLowStock]
    omega
  · intro il oq
    exact ⟨rfl, rfl, rfl, rfl, rfl, rfl, rfl⟩

/-- Witness for C1 at a concrete product with stock 3. -/
theorem stock_classification_partition_witness :
    0 ≤ (sampleProduct 3).stock ∧
    (isLowStock (sampleProduct 3) = true ↔
      0 < (sampleProduct 3).stock ∧ (sampleProduct 3).stock ≤ 5) :=
  ⟨by decide, (stock_classification_partition (sampleProduct 3) (by decide)).2.1⟩

/-- Claim C2: in both view modes the stock-dependent render outputs follow
the classification: out-of-stock gives label "Out of Stock" and a disabled
button labelled "Unavailable"; low-stock with count N gives "Only N left"
in the orange severity and an enabled "Add to Cart" button; in-stock with
count N gives "N in stock" in the green severity and an enabled
"Add to Cart" button. -/
theorem stock_dependent_render_outputs (p : Product) (il oq : Bool) :
    (isOutOfStock p = true →
      (renderList p il oq).stockText = "Out of Stock" ∧
      (renderGrid p il oq).stockText = "Out of Stock" ∧
      (renderList p il oq).outOfStockOverlay = true ∧
      (renderGrid p il oq).outOfStockOverlay = true ∧
      (renderList p il oq).addToCartDisabled = true ∧
      (renderGrid p il oq).addToCartDisabled = true ∧
      (renderList p il oq).addToCartLabel = "Unavailable" ∧
      (renderGrid p il oq).addToCartLabel = "Unavailable") ∧
    (isLowStock p = true →
      (renderList p il oq).stockText = "Only " ++ toString p.stock ++ " left" ∧
      (renderGrid p il oq).stockText = "Only " ++ toString p.stock ++ " left" ∧
      (renderList p il oq).stockColor = StockColor.orange ∧
      (renderGrid p il oq).stockColor = StockColor.orange ∧
      (renderList p il oq).addToCartDisabled = false ∧
      (renderGrid p il oq).addToCartDisabled = false ∧
      (renderList p il oq).addToCartLabel = "Add to Cart" ∧
      (renderGrid p il oq).addToCartLabel = "Add to Cart") ∧
    (isOutOfStock p = false → isLowStock p = false →
      (renderList p il oq).stockText = toString p.stock ++ " in stock" ∧
      (renderGrid p il oq).stockText = toString p.stock ++ " in stock" ∧
      (renderList p il oq).stockColor = StockColor.green ∧
      (renderGrid p il oq).stockColor = StockColor.green ∧
      (renderList p il oq).addToCartDisabled = false ∧
      (renderGrid p il oq).addToCartDisabled = false ∧
      (renderList p il oq).addToCartLabel = "Add to Cart" ∧
      (renderGrid p il oq).addToCartLabel = "Add to Cart") := by
  refine ⟨?_, ?_, ?_⟩
  · intro h
    simp [renderList, renderGrid, h]
  · intro h
    have ho := isLowStock_isOutOfStock_false p h
    simp [renderList, renderGrid, h, ho]
  · intro ho hl
    simp [renderList, renderGrid, ho, hl]

/-- Witness for C2: a product with stock 3 renders the literal text
"Only 3 left" in both branches. -/
theorem stock_dependent_render_outputs_witness :
    isLowStock (sampleProduct 3) = true ∧
    (renderList (sampleProduct 3) true false).stockText = "Only 3 left" ∧
    (renderGrid (sampleProduct 3) true false).stockText = "Only 3 left" := by
  have h := (stock_dependent_render_outputs (sampleProduct 3) true false).2.1 (by decide)
  refine ⟨by decide, h.1.trans ?_, h.2.1.trans ?_⟩ <;> decide

/-- Claim C3: whenever the product is present and the `onQuickView`
callback is supplied, activating the quick-view control (in whichever
branch is rendered, for any other prop combination) suppresses the default
navigation, stops propagation, and invokes the callback exactly once with
exactly the product's id. -/
theorem quick_view_contract (props : ProductCardProps) (p : Product) (il : Bool)
    (hp : props.product = some p) (hq : props.onQuickView = true) :
    ∃ c, renderProductCard props il = some c ∧
      c.quickViewOnActivate.preventDefault = true ∧
      c.quickViewOnActivate.stopPropagation = true ∧
      c.quickViewOnActivate.calls = [p.id] := by
  cases hvm : props.viewMode.getD ViewMode.grid with
  | grid =>
    refine ⟨renderGrid p il props.onQuickView, ?_, rfl, rfl, ?_⟩
    · simp [renderProductCard, hp, hvm]
    · simp [renderGrid, handleQuickView, hq]
  | list =>
    refine ⟨renderList p il props.onQuickView, ?_, rfl, rfl, ?_⟩
    · simp [renderProductCard, hp, hvm]
    · simp [renderList, handleQuickView, hq]

/-- Witness for C3 at a concrete product and list-mode props. -/
theorem quick_view_contract_witness :
    ∃ c, renderProductCard
        { product := some (sampleProduct 3), isLiked := none, onLikeToggle := false,
          viewMode := some ViewMode.list, onQuickView := true } true = some c ∧
      c.quickViewOnActivate.preventDefault = true ∧
      c.quickViewOnActivate.stopPropagation = true ∧
      c.quickViewOnActivate.calls = [(sampleProduct 3).id] :=
  quick_view_contract _ (sampleProduct 3) true rfl rfl

/-- Claim C4: when the product-listing fetch resolves with a non-success
status the page state is left untouched, the one diagnostic
"Product fetch error" is emitted, and from the initial (empty) state the
catalog stays empty so neither section renders a card. -/
theorem fetch_error_preserves_state (st : PageState) (res : FetchResponse)
    (h : res.ok = false) :
    fetchFeaturedProducts st res = (st, ["Product fetch error"]) ∧
    (fetchFeaturedProducts initialPageState res).1.products = [] ∧
    featuredSection (fetchFeaturedProducts initialPageState res).1.products = [] ∧
    allProductsSection (fetchFeaturedProducts initialPageState res).1.products = [] := by
  simp [fetchFeaturedProducts, h, initialPageState, featuredSection, allProductsSection]

/-- Witness for C4 at a concrete failed response. -/
theorem fetch_error_preserves_state_witness :
    (⟨false, []⟩ : FetchResponse).ok = false ∧
    fetchFeaturedProducts initialPageState ⟨false, []⟩ =
      (initialPageState, ["Product fetch error"]) :=
  ⟨rfl, (fetch_error_preserves_state initialPageState ⟨false, []⟩ rfl).1⟩

/-- Claim C5: with an absent product the component renders nothing (and in
particular cannot throw), for every combination of the other props and in
both view modes. -/
theorem absent_product_renders_nothing (props : ProductCardProps) (il : Bool)
    (h : props.product = none) :
    renderProductCard props il = none := by
  simp [renderProductCard, h]

/-- Witness for C5 at concrete props with every optional prop supplied. -/
theorem absent_product_renders_nothing_witness :
    ({ product := none, isLiked := some true, onLikeToggle := true,
       viewMode := some ViewMode.list, onQuickView := true } : ProductCardProps).product
      = none ∧
    renderProductCard
      { product := none, isLiked := some true, onLikeToggle := true,
        viewMode := some ViewMode.list, onQuickView := true } false = none :=
  ⟨rfl, absent_product_renders_nothing _ false rfl⟩

/-- Counterexample to C6 as stated: for a concrete product with absent
category, the rendered category label is not the English literal
"uncategorized" in either branch (the source renders the fixed Mongolian
literal instead). -/
theorem category_fallback_not_english :
    (sampleProduct 3).category = none ∧
    (renderGrid (sampleProduct 3) true false).categoryText ≠ "uncategorized" ∧
    (renderList (sampleProduct 3) true false).categoryText ≠ "uncategorized" := by
  refine ⟨rfl, ?_, ?_⟩ <;> decide

/-- Claim C6 (amended): for every product with absent category, both
branches render the one fixed fallback label "Ангилалгүй" (the source's
literal, Mongolian for "uncategorized"), identical in grid and list
modes, and the missing category never causes a failure. -/
theorem category_fallback_amended (p : Product) (il oq : Bool)
    (h : p.category = none) :
    (renderList p il oq).categoryText = "Ангилалгүй" ∧
    (renderGrid p il oq).categoryText = "Ангилалгүй" := by
  simp [renderList, renderGrid, h]

/-- Witness for the amended C6 at a concrete category-less product. -/
theorem category_fallback_amended_witness :
    (sampleProduct 0).category = none ∧
    (renderList (sampleProduct 0) true false).categoryText = "Ангилалгүй" :=
  ⟨rfl, (category_fallback_amended (sampleProduct 0) true false rfl).1⟩

/-- Claim C7: for every products state, the featured section and the
all-products section render the same sequence of card instances (same
products, same order, same props), and every card is in the default grid
view mode. -/
theorem featured_equals_all_products (ps : List Product) :
    featuredSection ps = allProductsSection ps ∧
    ∀ rc ∈ featuredSection ps, rc.props.viewMode.getD ViewMode.grid = ViewMode.grid := by
  refine ⟨rfl, ?_⟩
  intro rc hrc
  simp [featuredSection, cardPropsFor] at hrc
  obtain ⟨p, hp, rfl⟩ := hrc
  rfl

/-- Witness for C7 at a concrete one-product state. -/
theorem featured_equals_all_products_witness :
    featuredSection [sampleProduct 7] = allProductsSection [sampleProduct 7] ∧
    ({ key := (sampleProduct 7).id, props := cardPropsFor (sampleProduct 7) } :
        RenderedCard).props.viewMode.getD ViewMode.grid = ViewMode.grid :=
  ⟨(featured_equals_all_products [sampleProduct 7]).1,
   (featured_equals_all_products [sampleProduct 7]).2 _ (by decide)⟩

/-- Once `imageLoading` is `false`, no event makes it `true` again. -/
theorem imageLoadingStep_false (e : CardEvent) : imageLoadingStep false e = false := by
  cases e <;> rfl

/-- Folding any event sequence from the `false` state stays `false`. -/
theorem foldl_imageLoadingStep_false (l : List CardEvent) :
    l.foldl imageLoadingStep false = false := by
  induction l with
  | nil => rfl
  | cons e t ih =>
    rw [List.foldl_cons, imageLoadingStep_false]
    exact ih

/-- If the load signal occurs anywhere in the sequence, the resulting
state is `false`, from any starting state. -/
theorem foldl_imageLoadingStep_mem :
    ∀ (l : List CardEvent) (s : Bool), CardEvent.imageLoad ∈ l →
      l.foldl imageLoadingStep s = false := by
  intro l
  induction l with
  | nil =>
    intro s h
    cases h
  | cons e t ih =>
    intro s h
    rw [List.foldl_cons]
    cases e with
    | imageLoad => exact foldl_imageLoadingStep_false t
    | rerender =>
      rcases List.mem_cons.mp h with h1 | h2
      · simp at h1
      · exact ih s h2

/-- Claim C8: `imageLoading` is initialized to `true` on mount, the
image-load signal drives it to `false` from any state, any event sequence
containing the signal ends in `false`, and once `false` it stays `false`
under any further events — no reverse transition exists. -/
theorem image_loading_lifecycle :
    imageLoadingInit = true ∧
    (∀ s : Bool, imageLoadingStep s CardEvent.imageLoad = false) ∧
    (∀ events : List CardEvent, CardEvent.imageLoad ∈ events →
      imageLoadingAfter events = false) ∧
    (∀ pre post : List CardEvent, imageLoadingAfter pre = false →
      imageLoadingAfter (pre ++ post) = false) := by
  refine ⟨rfl, fun s => rfl, ?_, ?_⟩
  · intro events h
    exact foldl_imageLoadingStep_mem events imageLoadingInit h
  · intro pre post h
    unfold imageLoadingAfter at *
    rw [List.foldl_append, h]
    exact foldl_imageLoadingStep_false post

/-- Witness for C8 at concrete event sequences. -/
theorem image_loading_lifecycle_witness :
    imageLoadingAfter [CardEvent.rerender, CardEvent.imageLoad] = false ∧
    imageLoadingAfter ([CardEvent.imageLoad] ++ [CardEvent.rerender, CardEvent.rerender])
      = false :=
  ⟨image_loading_lifecycle.2.2.1 _ (by decide),
   image_loading_lifecycle.2.2.2 [CardEvent.imageLoad] _ (by decide)⟩

/-- Claim C9 fails on the code: if the page unmounts while the fetch is
pending and the fetch then resolves successfully, the resolution handler
still applies `setProducts` — the state write targets the unmounted
instance (one "set state on unmounted target" fault) instead of being
discarded, because the effect registers no cleanup and the handler checks
no mounted flag. -/
theorem unmount_pending_fetch_write_applied :
    (pageRun [PageEvent.unmount,
      PageEvent.fetchResolved ⟨true, [sampleProduct 2]⟩]).mounted = false ∧
    (pageRun [PageEvent.unmount,
      PageEvent.fetchResolved ⟨true, [sampleProduct 2]⟩]).unmountedWrites = 1 ∧
    (pageRun [PageEvent.unmount,
      PageEvent.fetchResolved ⟨true, [sampleProduct 2]⟩]).state.products
      = [sampleProduct 2] :=
  ⟨rfl, rfl, rfl⟩

/-- Claim C10: when a product is supplied, a card is always rendered, the
list branch is produced exactly when `viewMode` is the value `list`, and
an omitted `viewMode` defaults to the grid branch. -/
theorem view_mode_selects_branch (props : ProductCardProps) (p : Product) (il : Bool)
    (hp : props.product = some p) :
    ∃ c, renderProductCard props il = some c ∧
      (c.branch = ViewMode.list ↔ props.viewMode = some ViewMode.list) ∧
      (props.viewMode = none → c.branch = ViewMode.grid) := by
  cases hvm : props.viewMode with
  | none =>
    refine ⟨renderGrid p il props.onQuickView, ?_, ?_, fun _ => rfl⟩
    · simp [renderProductCard, hp, hvm]
    · simp [renderGrid, hvm]
  | some vm =>
    cases vm with
    | grid =>
      refine ⟨renderGrid p il props.onQuickView, ?_, ?_, fun _ => rfl⟩
      · simp [renderProductCard, hp, hvm]
      · simp [renderGrid, hvm]
    | list =>
      refine ⟨renderList p il props.onQuickView, ?_, ?_, ?_⟩
      · simp [renderProductCard, hp, hvm]
      · simp [renderList, hvm]
      · intro h
        exact Option.noConfusion h

/-- Witness for C10 at concrete props with `viewMode` omitted. -/
theorem view_mode_selects_branch_witness :
    ∃ c, renderProductCard
        { product := some (sampleProduct 9), isLiked := none, onLikeToggle := false,
          viewMode := none, onQuickView := false } true = some c ∧
      (c.branch = ViewMode.list ↔
        ({ product := some (sampleProduct 9), isLiked := none, onLikeToggle := false,
           viewMode := none, onQuickView := false } : ProductCardProps).viewMode
          = some ViewMode.list) ∧
      (({ product := some (sampleProduct 9), isLiked := none, onLikeToggle := false,
          viewMode := none, onQuickView := false } : ProductCardProps).viewMode = none →
        c.branch = ViewMode.grid) :=
  view_mode_selects_branch _ (sampleProduct 9) true rfl

end EcommerceMini
